import Mathlib

/-!
# Little Years backend — shallow embedding and verification

Embedding of `src/main.py` (FastAPI backend) and `src/schemas.py` for the
Little Years grandparent portal.  Documents stored in MongoDB are modelled
as schema-typed records (`KidDoc`, `MomentDoc`); the JSON dictionaries that
cross the HTTP boundary are modelled as association lists (`Doc`) over a
small `Value` type, which lets `_to_public` be embedded generically exactly
as the Python helper operates on `dict`s.

The repository imports `create_document` / `get_documents` from a
`database` module that is not part of the source tree; those two operations
are modelled from the spec (see their doc comments).  Everything else is a
direct translation of `src/main.py`.
-/

namespace LittleYears

/-- Values that can occur in a BSON/JSON document in this service:
strings, ObjectIds, timestamps (`datetime`, modelled as `Nat`), lists,
and `null` (Python `None`). -/
inductive Value where
  | vStr  : String → Value
  | vOid  : Nat → Value
  | vTime : Nat → Value
  | vList : List Value → Value
  | vNull : Value
deriving Repr

/-- A Python `dict` document: ordered association list of fields.
Python dicts have unique keys and preserve insertion order. -/
abbrev Doc := List (String × Value)

/-- Field lookup, `d.get(key)` / `key in d`. -/
def lookupD : Doc → String → Option Value
  | [], _ => none
  | (k, v) :: rest, key => if k = key then some v else lookupD rest key

/-- `d.pop(key)`: the dictionary without the given key
(other keys keep their order). -/
def popKey (d : Doc) (k : String) : Doc :=
  d.filter (fun kv => kv.1 ≠ k)

/-- `d[key] = value` on a Python dict: updates in place if the key exists,
otherwise appends the new key at the end. -/
def setKey (d : Doc) (k : String) (v : Value) : Doc :=
  if d.any (fun kv => kv.1 = k) then
    d.map (fun kv => if kv.1 = k then (k, v) else kv)
  else d ++ [(k, v)]

/-- `str(ObjectId)` renders the id as a 24-character lowercase hex string. -/
def oidToStr (n : Nat) : String :=
  let hex := Nat.toDigits 16 n
  let pad := List.replicate (24 - hex.length) '0'
  String.mk (pad ++ hex)

/-- Python `str()` applied to a stored value (only the ObjectId case is
exercised by `_to_public`). -/
def pyStr : Value → String
  | .vStr s  => s
  | .vOid n  => oidToStr n
  | .vTime t => toString t
  | .vList _ => ""
  | .vNull   => "None"

/-- `_to_public` from `src/main.py`:
copy the document; if `"_id"` is present, pop it and store its string form
under `"id"`.  (The Python guard `if not doc: return doc` is subsumed: an
empty dict has no `"_id"` and is returned unchanged.) -/
def _to_public (doc : Doc) : Doc :=
  match lookupD doc "_id" with
  | some v => setKey (popKey doc "_id") "id" (.vStr (pyStr v))
  | none => doc

/-- `bson.ObjectId(s)` accepts exactly a 24-character hex string (a `str`
argument of any other shape raises `InvalidId`); the accepted string is
decoded to the underlying id. -/
def hexVal (c : Char) : Nat :=
  if c.isDigit then c.toNat - 48
  else if 'a' ≤ c ∧ c ≤ 'f' then c.toNat - 87
  else c.toNat - 55

def isHexChar (c : Char) : Bool :=
  c.isDigit || ('a' ≤ c && c ≤ 'f') || ('A' ≤ c && c ≤ 'F')

def parseObjectId (s : String) : Option Nat :=
  if s.length = 24 && s.data.all isHexChar then
    some (s.data.foldl (fun acc c => 16 * acc + hexVal c) 0)
  else none

/-- A stored `kid` collection document, per the `Kid` schema in
`src/schemas.py` plus the store-assigned `_id`. -/
structure KidDoc where
  oid : Nat
  name : String
  nickname : Option String
  birthdate : Option String
  avatar_url : Option String
  parent_email : String
  allowed_grandparents : List String
deriving Repr, DecidableEq

/-- A stored `moment` collection document, per the `Moment` schema in
`src/schemas.py`, plus the store-assigned `_id` and `created_at`
(the spec's §3 tolerates documents in which `created_at` is absent). -/
structure MomentDoc where
  oid : Nat
  kid_id : String
  type : String
  title : String
  description : Option String
  media_url : Option String
  thumbnail_url : Option String
  visibility : String
  tags : List String
  created_at : Option Nat
deriving Repr, DecidableEq

/-- The document store: the `kid` and `moment` collections plus the
counter from which fresh ObjectIds (and insertion timestamps) are drawn. -/
structure DB where
  kids : List KidDoc
  moments : List MomentDoc
  nextOid : Nat
deriving Repr, DecidableEq

def optStr : Option String → Value
  | some s => .vStr s
  | none => .vNull

/-- The raw dict a stored kid document presents to Python code. -/
def kidToDoc (k : KidDoc) : Doc :=
  [("_id", .vOid k.oid), ("name", .vStr k.name), ("nickname", optStr k.nickname),
   ("birthdate", optStr k.birthdate), ("avatar_url", optStr k.avatar_url),
   ("parent_email", .vStr k.parent_email),
   ("allowed_grandparents", .vList (k.allowed_grandparents.map .vStr))]

/-- The raw dict a stored moment document presents to Python code; a
document without `created_at` simply lacks the key. -/
def momentToDoc (m : MomentDoc) : Doc :=
  [("_id", .vOid m.oid), ("kid_id", .vStr m.kid_id), ("type", .vStr m.type),
   ("title", .vStr m.title), ("description", optStr m.description),
   ("media_url", optStr m.media_url), ("thumbnail_url", optStr m.thumbnail_url),
   ("visibility", .vStr m.visibility), ("tags", .vList (m.tags.map .vStr))]
  ++ (match m.created_at with
      | some t => [("created_at", .vTime t)]
      | none => [])

/-- The two shapes of moment filter `kid_timeline` ever builds:
`{"kid_id": kid_id, "visibility": "public"}` or `{"kid_id": kid_id}`. -/
structure MFilter where
  kid_id : String
  visibility : Option String
deriving Repr, DecidableEq

def momentMatches (f : MFilter) (m : MomentDoc) : Bool :=
  m.kid_id = f.kid_id &&
    (match f.visibility with
     | none => true
     | some v => m.visibility = v)

/-- Modelled from the spec: `get_documents(collection, filter)` lives in the
repository's `database` module, which is not under `src/`; per spec §4.1 the
filter is a structural predicate over top-level fields (equality tests) and
the query returns the matching records.  Only the `moment` collection is
queried through it by the timeline. -/
def get_documents (db : DB) (f : MFilter) : List MomentDoc :=
  db.moments.filter (momentMatches f)

/-- Errors surfaced by the timeline endpoint.  `notFound` is included
because `kid_timeline` contains `raise HTTPException(404)`; whether that
branch can actually reach the caller is settled by the theorems. -/
inductive TLError where
  | dbNotConfigured      -- HTTP 500 "Database not configured"
  | invalidInput         -- HTTP 400 "Invalid kid id"
  | notFound             -- HTTP 404 "Kid not found"
  | storageUnavailable   -- an uncaught storage exception propagates (5xx)
  | typeError            -- an uncaught TypeError propagates (5xx)
deriving Repr, DecidableEq

/-- Fault injection for the two storage calls and the module-level `db`
handle: `dbNone` models `db is None`, `findOne` a storage exception raised
by `db["kid"].find_one`, `getDocs` one raised by `get_documents`. -/
structure Inj where
  dbNone : Bool
  findOne : Bool
  getDocs : Bool
deriving Repr, DecidableEq

def noInj : Inj := ⟨false, false, false⟩

/-- Exceptions that can be raised inside the `try:` block of
`kid_timeline` (lines 143–146 of `src/main.py`). -/
inductive KidLookupExc where
  | invalidOid    -- `ObjectId(kid_id)` raises bson InvalidId
  | storageExc    -- `db["kid"].find_one` raises a storage error
  | httpNotFound  -- `raise HTTPException(status_code=404, ...)`
deriving Repr, DecidableEq

/-- The body of the `try:` block: parse the id, run `find_one`, and raise
404 when no kid matches. -/
def kidLookupTry (db : DB) (inj : Inj) (kid_id : String) :
    Except KidLookupExc KidDoc :=
  match parseObjectId kid_id with
  | none => .error .invalidOid
  | some oid =>
    if inj.findOne then .error .storageExc
    else
      match db.kids.find? (fun k => k.oid == oid) with
      | none => .error .httpNotFound
      | some k => .ok k

/-- The `try ... except Exception: raise HTTPException(400)` wrapper:
EVERY exception raised inside the block — including the 404
`HTTPException` and any storage error from `find_one` — is caught and
re-raised as HTTP 400 "Invalid kid id". -/
def kidLookup (db : DB) (inj : Inj) (kid_id : String) : Except TLError KidDoc :=
  match kidLookupTry db inj kid_id with
  | .ok k => .ok k
  | .error _ => .error .invalidInput

/-- The condition `grandparent and grandparent in
(kid_obj.get("allowed_grandparents") or [])`: the query parameter must be
present, non-empty (truthy) and an exact-string member of the list. -/
def authorizedGp (gp : Option String) (allowed : List String) : Bool :=
  match gp with
  | some g => g ≠ "" && allowed.contains g
  | none => false

/-- The effective moment filter `kid_timeline` sends to storage. -/
def effectiveFilter (kid_id : String) (include_private auth : Bool) : MFilter :=
  if include_private && auth then ⟨kid_id, none⟩
  else ⟨kid_id, some "public"⟩

/-- Sort key of line 161: `m.get("created_at")`. -/
def sortKey (m : MomentDoc) : Nat := m.created_at.getD 0

/-- Stable insertion (descending): an element moves ahead only of strictly
smaller keys, so elements with equal keys keep their original order —
exactly the stability contract of CPython `list.sort(reverse=True)`. -/
def insertDesc (m : MomentDoc) : List MomentDoc → List MomentDoc
  | [] => [m]
  | x :: xs => if sortKey x ≤ sortKey m then m :: x :: xs else x :: insertDesc m xs

def sortDesc : List MomentDoc → List MomentDoc
  | [] => []
  | x :: xs => insertDesc x (sortDesc xs)

/-- `moments.sort(key=lambda m: m.get("created_at"), reverse=True)` in
CPython: with fewer than two elements no comparison runs; with two or more,
every element's key is compared at least once, and any comparison that
involves `None` (a document lacking `created_at`) raises `TypeError`, which
no caller catches.  When all keys are timestamps the sort is a stable
descending sort. -/
def pySortDesc (l : List MomentDoc) : Except TLError (List MomentDoc) :=
  if l.length ≤ 1 then .ok l
  else if l.all (fun m => m.created_at.isSome) then .ok (sortDesc l)
  else .error .typeError

/-- The timeline response dict
`{"kid": ..., "moments": [...], "includes_private": ...}`. -/
structure TLResult where
  kid : Doc
  moments : List Doc
  includes_private : Bool

/-- `kid_timeline` from `src/main.py` lines 137–166, translated branch by
branch.  `include_private` is reassigned to `False` on the unauthorized
path in Python; here the returned flag is `include_private && auth`, which
coincides with the reassignment in every case. -/
def kid_timeline (db : DB) (inj : Inj) (kid_id : String)
    (include_private : Bool) (grandparent : Option String) :
    Except TLError TLResult :=
  if inj.dbNone then .error .dbNotConfigured
  else
    match kidLookup db inj kid_id with
    | .error e => .error e
    | .ok kid_obj =>
      let auth := authorizedGp grandparent kid_obj.allowed_grandparents
      let filt := effectiveFilter kid_id include_private auth
      let disclosed := include_private && auth
      if inj.getDocs then .error .storageUnavailable
      else
        match pySortDesc (get_documents db filt) with
        | .error e => .error e
        | .ok sorted =>
          .ok ⟨_to_public (kidToDoc kid_obj),
               sorted.map (fun m => _to_public (momentToDoc m)),
               disclosed⟩

/-- Modelled from the spec: `create_document(collection, record)` lives in
the repository's `database` module, which is not under `src/`; per spec §3
and §4.1 it inserts the record, assigns a fresh store-native id, stamps
`created_at` at insertion time, and returns the id as a string.  Fresh ids
and timestamps are drawn from the monotone `nextOid` counter. -/
def create_kid_document (db : DB) (mk : Nat → KidDoc) : DB × String :=
  let oid := db.nextOid
  ({ db with kids := db.kids ++ [mk oid], nextOid := oid + 1 }, oidToStr oid)

/-- Modelled from the spec: moment-collection instance of
`create_document`; see `create_kid_document`. -/
def create_moment_document (db : DB) (mk : Nat → Nat → MomentDoc) : DB × String :=
  let oid := db.nextOid
  ({ db with moments := db.moments ++ [mk oid oid], nextOid := oid + 1 },
   oidToStr oid)

/-- `seed_demo` from `src/main.py` lines 57–121:
delete kids named "Ava"; delete moments matching `{"kid_name": "Ava"}` —
schema `Moment` documents carry `kid_id`, never a `kid_name` field, so that
legacy filter matches no seeded document and the delete is a no-op; then
insert kid Ava and her three moments. -/
def seed_demo (db : DB) : DB × List String :=
  let db0 : DB := { db with kids := db.kids.filter (fun k => k.name ≠ "Ava") }
  let (db1, kidId) := create_kid_document db0 (fun oid =>
    { oid := oid, name := "Ava", nickname := some "Aves", birthdate := none,
      avatar_url := some "https://images.unsplash.com/photo-1503454537195-1dcabb73ffb9?w=640",
      parent_email := "parent@littleyears.demo",
      allowed_grandparents := ["grandma@family.demo"] })
  let (db2, mid1) := create_moment_document db1 (fun oid t =>
    { oid := oid, kid_id := kidId, type := "photo", title := "First bike ride!",
      description := some "Sunset cruise in the park",
      media_url := some "https://images.unsplash.com/photo-1492724441997-5dc865305da7?w=1200",
      thumbnail_url := some "https://images.unsplash.com/photo-1492724441997-5dc865305da7?w=400",
      visibility := "public", tags := ["milestone", "outdoors"], created_at := some t })
  let (db3, mid2) := create_moment_document db2 (fun oid t =>
    { oid := oid, kid_id := kidId, type := "art", title := "Finger painting",
      description := some "Blue and yellow masterpiece",
      media_url := some "https://images.unsplash.com/photo-1582719478250-c89cae4dc85b?w=1200",
      thumbnail_url := some "https://images.unsplash.com/photo-1582719478250-c89cae4dc85b?w=400",
      visibility := "private", tags := ["art", "home"], created_at := some t })
  let (db4, mid3) := create_moment_document db3 (fun oid t =>
    { oid := oid, kid_id := kidId, type := "audio", title := "Goodnight message",
      description := some "Ava says goodnight to Grandma",
      media_url := some "https://www.soundhelix.com/examples/mp3/SoundHelix-Song-1.mp3",
      thumbnail_url := none,
      visibility := "public", tags := ["voice"], created_at := some t })
  (db4, [kidId, mid1, mid2, mid3])

def emptyDB : DB := ⟨[], [], 1⟩

end LittleYears

namespace LittleYears

/-- `Except.isOk`-style observer for timeline outcomes. -/
def isOkResult : Except TLError TLResult → Bool
  | .ok _ => true
  | .error _ => false

/-- Observes the length of the `allowed_grandparents` list disclosed in a
timeline response (0 when the request failed or the field is absent). -/
def agListLen : Except TLError TLResult → Nat
  | .ok r =>
    match lookupD r.kid "allowed_grandparents" with
    | some (.vList l) => l.length
    | _ => 0
  | .error _ => 0

-- Concrete fixtures used by the closed theorems and witnesses.

/-- A well-formed 24-hex-character kid id whose ObjectId value is 1. -/
def cid1 : String := "000000000000000000000001"

def wKid : KidDoc :=
  ⟨1, "Ava", none, none, none, "parent@littleyears.demo", ["grandma@family.demo"]⟩

def wMomPub : MomentDoc :=
  ⟨2, cid1, "photo", "bike", none, none, none, "public", [], some 10⟩

def wMomPriv : MomentDoc :=
  ⟨3, cid1, "art", "painting", none, none, none, "private", [], some 11⟩

def wMomNoTime : MomentDoc :=
  ⟨5, cid1, "photo", "untimed", none, none, none, "public", [], none⟩

def wDB : DB := ⟨[wKid], [wMomPub, wMomPriv], 4⟩

def wDB5 : DB := ⟨[wKid], [wMomPub, wMomNoTime], 6⟩

def wRes1 : TLResult :=
  match kid_timeline wDB noInj cid1 true (some "stranger@x.com") with
  | .ok r => r
  | .error _ => ⟨[], [], true⟩

def wRes2 : TLResult :=
  match kid_timeline wDB noInj cid1 true (some "grandma@family.demo") with
  | .ok r => r
  | .error _ => ⟨[], [], false⟩

def wRes3 : TLResult :=
  match kid_timeline wDB noInj cid1 false (some "grandma@family.demo") with
  | .ok r => r
  | .error _ => ⟨[], [], true⟩

/-- Two stores identical except for the secret access list of the kid. -/
def wKidA : KidDoc := ⟨1, "Ava", none, none, none, "p@x", ["a@family.demo"]⟩

def wKidB : KidDoc := ⟨1, "Ava", none, none, none, "p@x", ["a@family.demo", "b@family.demo"]⟩

def wDBA : DB := ⟨[wKidA], [], 2⟩

def wDBB : DB := ⟨[wKidB], [], 2⟩

def wDoc8 : Doc := [("_id", .vOid 7), ("name", .vStr "Ava"), ("parent_email", .vStr "p@x")]

end LittleYears

namespace LittleYears

-- ---------------------------------------------------------------------
-- Helper lemmas about the public representation, the sort and the query
-- ---------------------------------------------------------------------

theorem lookup_pub_moment_visibility (m : MomentDoc) :
    lookupD (_to_public (momentToDoc m)) "visibility" = some (.vStr m.visibility) := by
  obtain ⟨o, ki, ty, ti, de, mu, tu, vis, tg, ca⟩ := m
  cases ca <;> rfl

theorem lookup_pub_moment_kid_id (m : MomentDoc) :
    lookupD (_to_public (momentToDoc m)) "kid_id" = some (.vStr m.kid_id) := by
  obtain ⟨o, ki, ty, ti, de, mu, tu, vis, tg, ca⟩ := m
  cases ca <;> rfl

theorem lookup_pub_kid_ag (k : KidDoc) :
    lookupD (_to_public (kidToDoc k)) "allowed_grandparents"
      = some (.vList (k.allowed_grandparents.map .vStr)) := rfl

theorem lookup_pub_kid_parent_email (k : KidDoc) :
    lookupD (_to_public (kidToDoc k)) "parent_email" = some (.vStr k.parent_email) := rfl

theorem mem_insertDesc (a m : MomentDoc) (l : List MomentDoc) :
    a ∈ insertDesc m l ↔ a = m ∨ a ∈ l := by
  induction l with
  | nil => simp [insertDesc]
  | cons x xs ih =>
    simp only [insertDesc]
    split
    · simp [or_comm, or_assoc, List.mem_cons]
    · simp [List.mem_cons, ih]
      tauto

theorem mem_sortDesc (a : MomentDoc) (l : List MomentDoc) :
    a ∈ sortDesc l ↔ a ∈ l := by
  induction l with
  | nil => simp [sortDesc]
  | cons x xs ih => simp [sortDesc, mem_insertDesc, ih]

theorem pySortDesc_ok (l : List MomentDoc)
    (h : ∀ m ∈ l, m.created_at.isSome) :
    pySortDesc l = .ok (sortDesc l) := by
  unfold pySortDesc
  match l, h with
  | [], _ => rfl
  | [x], _ => rfl
  | x :: y :: xs, h =>
    simp only [List.length_cons, List.all_eq_true]
    rw [if_neg (by omega), if_pos (by intro m hm; exact h m hm)]

theorem pySortDesc_mem (l l' : List MomentDoc) (h : pySortDesc l = .ok l') :
    ∀ m ∈ l', m ∈ l := by
  unfold pySortDesc at h
  split at h
  · injection h with h; subst h; exact fun m hm => hm
  · split at h
    · injection h with h; subst h
      intro m hm
      rwa [mem_sortDesc] at hm
    · cases h

theorem kid_timeline_ok_eq (db : DB) (kid_id : String) (ip : Bool) (gp : Option String)
    (k : KidDoc) (hk : kidLookupTry db noInj kid_id = .ok k) :
    kid_timeline db noInj kid_id ip gp =
      match pySortDesc (get_documents db
          (effectiveFilter kid_id ip (authorizedGp gp k.allowed_grandparents))) with
      | .error e => .error e
      | .ok sorted =>
        .ok ⟨_to_public (kidToDoc k),
             sorted.map (fun m => _to_public (momentToDoc m)),
             ip && authorizedGp gp k.allowed_grandparents⟩ := by
  simp only [kid_timeline, kidLookup]
  rw [hk]; rfl

theorem mem_get_documents (db : DB) (f : MFilter) (m : MomentDoc) :
    m ∈ get_documents db f ↔ m ∈ db.moments ∧ momentMatches f m = true :=
  List.mem_filter

theorem momentMatches_public_iff (kid_id : String) (m : MomentDoc) :
    momentMatches ⟨kid_id, some "public"⟩ m = true ↔
      m.kid_id = kid_id ∧ m.visibility = "public" := by
  simp [momentMatches]

theorem momentMatches_all_iff (kid_id : String) (m : MomentDoc) :
    momentMatches ⟨kid_id, none⟩ m = true ↔ m.kid_id = kid_id := by
  simp [momentMatches]

theorem momentMatches_kid (f : MFilter) (m : MomentDoc)
    (h : momentMatches f m = true) : m.kid_id = f.kid_id := by
  simp only [momentMatches, Bool.and_eq_true, decide_eq_true_eq] at h
  exact h.1

theorem effectiveFilter_kid (kid_id : String) (ip auth : Bool) :
    (effectiveFilter kid_id ip auth).kid_id = kid_id := by
  unfold effectiveFilter
  split <;> rfl

theorem lookupD_append (l1 l2 : Doc) (key : String) :
    lookupD (l1 ++ l2) key =
      match lookupD l1 key with
      | some v => some v
      | none => lookupD l2 key := by
  induction l1 with
  | nil => rfl
  | cons kv rest ih =>
    by_cases h : kv.1 = key
    · simp [lookupD, h]
    · simp [lookupD, h, ih]

theorem lookupD_popKey_self (d : Doc) (key : String) :
    lookupD (popKey d key) key = none := by
  induction d with
  | nil => rfl
  | cons kv rest ih =>
    by_cases h : kv.1 = key
    · simpa [popKey, h] using ih
    · simpa [popKey, lookupD, h] using ih

theorem lookupD_popKey_other (d : Doc) (k1 k2 : String) (hne : k2 ≠ k1) :
    lookupD (popKey d k1) k2 = lookupD d k2 := by
  induction d with
  | nil => rfl
  | cons kv rest ih =>
    by_cases h : kv.1 = k1
    · have hk2 : ¬ kv.1 = k2 := fun hh => hne (hh ▸ h)
      simp only [popKey, List.filter_cons, lookupD] at ih ⊢
      rw [if_neg (by simp [h]), if_neg hk2]
      exact ih
    · simp only [popKey, List.filter_cons, lookupD] at ih ⊢
      rw [if_pos (by simp [h])]
      by_cases h2 : kv.1 = k2
      · simp [lookupD, h2]
      · simp only [lookupD, if_neg h2]
        exact ih

theorem setKey_append_of_absent (d : Doc) (key : String) (v : Value)
    (h : lookupD d key = none) : setKey d key v = d ++ [(key, v)] := by
  unfold setKey
  rw [if_neg]
  intro hc
  rw [List.any_eq_true] at hc
  obtain ⟨kv, hkv, hkey⟩ := hc
  have : lookupD d key ≠ none := by
    clear h
    induction d with
    | nil => cases hkv
    | cons kv0 rest ih =>
      rcases List.mem_cons.mp hkv with h0 | h0
      · subst h0
        simp [lookupD, of_decide_eq_true hkey]
      · by_cases he : kv0.1 = key
        · simp [lookupD, he]
        · simpa [lookupD, he] using ih h0
  exact this h

end LittleYears

namespace LittleYears

-- ---------------------------------------------------------------------
-- Claim theorems
-- ---------------------------------------------------------------------

/-- Claim C1: for every kid and every request with `includePrivate = true`
whose grandparent email is empty, absent, or not a member of the kid's
`allowed_grandparents` list, the timeline operation does not fail: it
returns the same public-only result as an `includePrivate = false` request,
with the disclosed `includes_private` flag false and every returned moment
public.  (Success of the shared sort step needs every public moment of the
kid to carry `created_at`, which the store assigns at insertion; a document
without it crashes both requests identically — see claim C5.) -/
theorem unauthorized_private_request_falls_back (db : DB) (kid_id : String)
    (gp : Option String) (k : KidDoc)
    (hk : kidLookupTry db noInj kid_id = .ok k)
    (hgp : authorizedGp gp k.allowed_grandparents = false)
    (hsort : ∀ m ∈ db.moments, m.kid_id = kid_id → m.visibility = "public" →
      m.created_at.isSome) :
    kid_timeline db noInj kid_id true gp = kid_timeline db noInj kid_id false gp ∧
    isOkResult (kid_timeline db noInj kid_id true gp) = true ∧
    ∀ r, kid_timeline db noInj kid_id true gp = .ok r →
      r.includes_private = false ∧
      ∀ d ∈ r.moments, lookupD d "visibility" = some (.vStr "public") := by
  have hq : pySortDesc (get_documents db ⟨kid_id, some "public"⟩)
      = .ok (sortDesc (get_documents db ⟨kid_id, some "public"⟩)) := by
    apply pySortDesc_ok
    intro m hm
    rw [mem_get_documents] at hm
    obtain ⟨hm1, hm2⟩ := hm
    rw [momentMatches_public_iff] at hm2
    exact hsort m hm1 hm2.1 hm2.2
  have h1 := kid_timeline_ok_eq db kid_id true gp k hk
  have h0 := kid_timeline_ok_eq db kid_id false gp k hk
  rw [hgp] at h1 h0
  simp only [Bool.and_false, Bool.false_and] at h1 h0
  have hfilt : effectiveFilter kid_id true false = ⟨kid_id, some "public"⟩ := rfl
  have hfilt0 : effectiveFilter kid_id false false = ⟨kid_id, some "public"⟩ := rfl
  rw [hfilt] at h1
  rw [hfilt0] at h0
  rw [hq] at h1 h0
  refine ⟨h1.trans h0.symm, by rw [h1]; rfl, ?_⟩
  intro r hr
  rw [h1] at hr
  injection hr with hr
  subst hr
  refine ⟨rfl, ?_⟩
  intro d hd
  rw [List.mem_map] at hd
  obtain ⟨m, hm, rfl⟩ := hd
  rw [mem_sortDesc, mem_get_documents, momentMatches_public_iff] at hm
  rw [lookup_pub_moment_visibility]
  rw [hm.2.2]

/-- Witness for C1 on the demo-shaped store `wDB` with an unauthorized
grandparent. -/
theorem unauthorized_fallback_witness :
    kidLookupTry wDB noInj cid1 = .ok wKid ∧
    authorizedGp (some "stranger@x.com") wKid.allowed_grandparents = false ∧
    (∀ m ∈ wDB.moments, m.kid_id = cid1 → m.visibility = "public" →
      m.created_at.isSome) ∧
    kid_timeline wDB noInj cid1 true (some "stranger@x.com")
      = kid_timeline wDB noInj cid1 false (some "stranger@x.com") ∧
    isOkResult (kid_timeline wDB noInj cid1 true (some "stranger@x.com")) = true ∧
    wRes1.includes_private = false :=
  have h := unauthorized_private_request_falls_back wDB cid1 (some "stranger@x.com")
    wKid rfl rfl (by decide)
  ⟨rfl, rfl, by decide, h.1, h.2.1, (h.2.2 wRes1 rfl).1⟩

/-- Claim C2: for every kid and every `includePrivate = true` request whose
grandparent email is non-empty and an exact-string member of the kid's
`allowed_grandparents`, the effective filter is the kid scope with no
visibility restriction, the disclosed flag is true, every moment of the
kid (public and private alike) is included, and all returned moments
belong to the kid. -/
theorem authorized_private_request_widens (db : DB) (kid_id g : String) (k : KidDoc)
    (hk : kidLookupTry db noInj kid_id = .ok k)
    (hne : g ≠ "")
    (hmem : g ∈ k.allowed_grandparents)
    (hsort : ∀ m ∈ db.moments, m.kid_id = kid_id → m.created_at.isSome) :
    effectiveFilter kid_id true (authorizedGp (some g) k.allowed_grandparents)
      = ⟨kid_id, none⟩ ∧
    isOkResult (kid_timeline db noInj kid_id true (some g)) = true ∧
    ∀ r, kid_timeline db noInj kid_id true (some g) = .ok r →
      r.includes_private = true ∧
      (∀ m ∈ db.moments, m.kid_id = kid_id → _to_public (momentToDoc m) ∈ r.moments) ∧
      (∀ d ∈ r.moments, lookupD d "kid_id" = some (.vStr kid_id)) := by
  have hauth : authorizedGp (some g) k.allowed_grandparents = true := by
    simp [authorizedGp, hne, hmem]
  have hq : pySortDesc (get_documents db ⟨kid_id, none⟩)
      = .ok (sortDesc (get_documents db ⟨kid_id, none⟩)) := by
    apply pySortDesc_ok
    intro m hm
    rw [mem_get_documents, momentMatches_all_iff] at hm
    exact hsort m hm.1 hm.2
  have h1 := kid_timeline_ok_eq db kid_id true (some g) k hk
  rw [hauth] at h1
  rw [show effectiveFilter kid_id true true = ⟨kid_id, none⟩ from rfl, hq] at h1
  refine ⟨by rw [hauth]; rfl, by rw [h1]; rfl, ?_⟩
  intro r hr
  rw [h1] at hr
  injection hr with hr
  subst hr
  refine ⟨rfl, ?_, ?_⟩
  · intro m hm hkid
    rw [List.mem_map]
    exact ⟨m, by rw [mem_sortDesc, mem_get_documents, momentMatches_all_iff]
                 exact ⟨hm, hkid⟩, rfl⟩
  · intro d hd
    rw [List.mem_map] at hd
    obtain ⟨m, hm, rfl⟩ := hd
    rw [mem_sortDesc, mem_get_documents, momentMatches_all_iff] at hm
    rw [lookup_pub_moment_kid_id, hm.2]

/-- Witness for C2 on the demo-shaped store `wDB` with the authorized
grandparent: the flag is true and both the public and the private moment
are included. -/
theorem widened_filter_witness :
    kidLookupTry wDB noInj cid1 = .ok wKid ∧
    "grandma@family.demo" ∈ wKid.allowed_grandparents ∧
    (∀ m ∈ wDB.moments, m.kid_id = cid1 → m.created_at.isSome) ∧
    effectiveFilter cid1 true
        (authorizedGp (some "grandma@family.demo") wKid.allowed_grandparents)
      = ⟨cid1, none⟩ ∧
    isOkResult (kid_timeline wDB noInj cid1 true (some "grandma@family.demo")) = true ∧
    wRes2.includes_private = true ∧
    _to_public (momentToDoc wMomPub) ∈ wRes2.moments ∧
    _to_public (momentToDoc wMomPriv) ∈ wRes2.moments :=
  have h := authorized_private_request_widens wDB cid1 "grandma@family.demo" wKid
    rfl (by decide) (by decide) (by decide)
  ⟨rfl, by decide, by decide, h.1, h.2.1, (h.2.2 wRes2 rfl).1,
   (h.2.2 wRes2 rfl).2.1 wMomPub (by decide) rfl,
   (h.2.2 wRes2 rfl).2.1 wMomPriv (by decide) rfl⟩

/-- Claim C3: for every kid and every grandparent value, a request with
`includePrivate = false` succeeds, discloses `includes_private = false`,
and returns only moments that are public and belong to the requested
kid. -/
theorem public_request_returns_public_only (db : DB) (kid_id : String)
    (gp : Option String) (k : KidDoc)
    (hk : kidLookupTry db noInj kid_id = .ok k)
    (hsort : ∀ m ∈ db.moments, m.kid_id = kid_id → m.visibility = "public" →
      m.created_at.isSome) :
    isOkResult (kid_timeline db noInj kid_id false gp) = true ∧
    ∀ r, kid_timeline db noInj kid_id false gp = .ok r →
      r.includes_private = false ∧
      ∀ d ∈ r.moments, lookupD d "visibility" = some (.vStr "public") ∧
        lookupD d "kid_id" = some (.vStr kid_id) := by
  have hq : pySortDesc (get_documents db ⟨kid_id, some "public"⟩)
      = .ok (sortDesc (get_documents db ⟨kid_id, some "public"⟩)) := by
    apply pySortDesc_ok
    intro m hm
    rw [mem_get_documents, momentMatches_public_iff] at hm
    exact hsort m hm.1 hm.2.1 hm.2.2
  have h0 := kid_timeline_ok_eq db kid_id false gp k hk
  rw [show effectiveFilter kid_id false (authorizedGp gp k.allowed_grandparents)
        = ⟨kid_id, some "public"⟩ from rfl, hq] at h0
  refine ⟨by rw [h0]; rfl, ?_⟩
  intro r hr
  rw [h0] at hr
  injection hr with hr
  subst hr
  refine ⟨rfl, ?_⟩
  intro d hd
  rw [List.mem_map] at hd
  obtain ⟨m, hm, rfl⟩ := hd
  rw [mem_sortDesc, mem_get_documents, momentMatches_public_iff] at hm
  exact ⟨by rw [lookup_pub_moment_visibility, hm.2.2],
         by rw [lookup_pub_moment_kid_id, hm.2.1]⟩

/-- Witness for C3 on the demo-shaped store `wDB`, even with an authorized
grandparent supplied. -/
theorem public_only_witness :
    kidLookupTry wDB noInj cid1 = .ok wKid ∧
    isOkResult (kid_timeline wDB noInj cid1 false (some "grandma@family.demo")) = true ∧
    wRes3.includes_private = false ∧
    lookupD (_to_public (momentToDoc wMomPub)) "visibility" = some (.vStr "public") :=
  have h := public_request_returns_public_only wDB cid1 (some "grandma@family.demo")
    wKid rfl (by decide)
  ⟨rfl, h.1, (h.2 wRes3 rfl).1,
   ((h.2 wRes3 rfl).2 (_to_public (momentToDoc wMomPub)) (List.Mem.head _)).1⟩

/-- Claim C4: the claim says a well-formed but absent `kidId` yields
NotFound (404).  In the code the `raise HTTPException(404)` sits inside the
`try:` block whose `except Exception:` re-raises everything as 400, so the
inner computation does raise the 404 (first conjunct) but the endpoint
returns 400 `invalidInput` for a well-formed absent id (second conjunct),
exactly as it does for a malformed id (third conjunct).  The 404 branch is
unreachable at the boundary. -/
theorem notfound_is_swallowed_to_400 :
    kidLookupTry emptyDB noInj cid1 = .error .httpNotFound ∧
    kid_timeline emptyDB noInj cid1 false none = .error .invalidInput ∧
    kid_timeline emptyDB noInj "not-a-valid-object-id" false none
      = .error .invalidInput :=
  ⟨rfl, rfl, rfl⟩

/-- Claim C5: the claim says a moment lacking `created_at` is tolerated and
sorts as oldest.  The code's sort key is `m.get("created_at")`, which is
`None` for such a document, and CPython raises `TypeError` on any
comparison with `None`; with the kid's two public moments, one of them
untimed, the whole timeline request fails instead of sorting. -/
theorem missing_created_at_raises :
    pySortDesc [wMomPub, wMomNoTime] = .error .typeError ∧
    kid_timeline wDB5 noInj cid1 false none = .error .typeError :=
  ⟨rfl, rfl⟩

/-- Claim C6: the claim says seeding twice leaves exactly one demo kid and
exactly three demo moments because prior demo records are deleted first.
Seeding from the empty store twice leaves one kid named "Ava" but six
moment documents: the delete filter `{"kid_name": "Ava"}` matches no
seeded moment (they carry `kid_id`), so the first call's three moments
survive as orphans of the deleted first kid (ObjectId 1) next to the three
belonging to the current kid (ObjectId 5). -/
theorem seed_twice_accumulates :
    ((seed_demo (seed_demo emptyDB).1).1.kids.filter
        (fun k => k.name = "Ava")).length = 1 ∧
    (seed_demo (seed_demo emptyDB).1).1.moments.length = 6 ∧
    ((seed_demo (seed_demo emptyDB).1).1.moments.filter
        (fun m => m.kid_id = oidToStr 5)).length = 3 ∧
    ((seed_demo (seed_demo emptyDB).1).1.moments.filter
        (fun m => m.kid_id = oidToStr 1)).length = 3 ∧
    ((seed_demo (seed_demo emptyDB).1).1.kids.filter
        (fun k => k.oid = 1)).length = 0 := by
  refine ⟨by decide, rfl, by decide, by decide, by decide⟩

/-- Claim C7: both shapes of effective filter are scoped to the requested
kid id, and every moment in any successful timeline response carries
`kid_id` equal to the requested kid, whatever `include_private`, the
grandparent value, or the fault-injection flags. -/
theorem timeline_moments_scoped (db : DB) (inj : Inj) (kid_id : String)
    (ip : Bool) (gp : Option String) (r : TLResult)
    (h : kid_timeline db inj kid_id ip gp = .ok r) :
    (∀ ip2 auth2, (effectiveFilter kid_id ip2 auth2).kid_id = kid_id) ∧
    ∀ d ∈ r.moments, lookupD d "kid_id" = some (.vStr kid_id) := by
  refine ⟨fun ip2 auth2 => effectiveFilter_kid kid_id ip2 auth2, ?_⟩
  unfold kid_timeline at h
  split at h
  · cases h
  · split at h
    · cases h
    · next kid_obj heq =>
      split at h
      · cases h
      · dsimp only at h
        split at h
        · cases h
        · next sorted heq2 =>
          injection h with h
          subst h
          intro d hd
          rw [List.mem_map] at hd
          obtain ⟨m, hm, rfl⟩ := hd
          have hm2 := pySortDesc_mem _ _ heq2 m hm
          rw [mem_get_documents] at hm2
          have h3 := momentMatches_kid _ _ hm2.2
          rw [effectiveFilter_kid] at h3
          rw [lookup_pub_moment_kid_id, h3]

/-- Witness for C7 on the demo-shaped store with private access granted. -/
theorem scoped_queries_witness :
    kid_timeline wDB noInj cid1 true (some "grandma@family.demo") = .ok wRes2 ∧
    (effectiveFilter cid1 true false).kid_id = cid1 ∧
    lookupD (_to_public (momentToDoc wMomPriv)) "kid_id" = some (.vStr cid1) :=
  have h := timeline_moments_scoped wDB noInj cid1 true (some "grandma@family.demo")
    wRes2 rfl
  ⟨rfl, h.1 true false,
   h.2 (_to_public (momentToDoc wMomPriv)) (List.Mem.head _)⟩

/-- Claim C8: for a stored document (it has `"_id"` and, as for every
schema-produced record, no `"id"` field), `_to_public` returns exactly the
document with `"_id"` removed and its string form appended as `"id"`; the
internal name `"_id"` never appears in the output and every other field is
preserved untouched. -/
theorem to_public_renames_only_id (doc : Doc) (v : Value)
    (hid : lookupD doc "_id" = some v)
    (hno : lookupD doc "id" = none) :
    _to_public doc = popKey doc "_id" ++ [("id", .vStr (pyStr v))] ∧
    lookupD (_to_public doc) "_id" = none ∧
    ∀ key, key ≠ "_id" → key ≠ "id" →
      lookupD (_to_public doc) key = lookupD doc key := by
  have hpop : lookupD (popKey doc "_id") "id" = none := by
    rw [lookupD_popKey_other doc "_id" "id" (by decide)]
    exact hno
  have hmain : _to_public doc = popKey doc "_id" ++ [("id", .vStr (pyStr v))] := by
    unfold _to_public
    rw [hid]
    exact setKey_append_of_absent _ _ _ hpop
  refine ⟨hmain, ?_, ?_⟩
  · rw [hmain, lookupD_append, lookupD_popKey_self]
    rfl
  · intro key h1 h2
    rw [hmain, lookupD_append, lookupD_popKey_other doc "_id" key h1]
    cases hcase : lookupD doc key with
    | some w => rfl
    | none =>
      rw [show lookupD [("id", Value.vStr (pyStr v))] key = none from by
        simp only [lookupD]
        rw [if_neg (fun hh => h2 (Eq.symm hh))]]

/-- Witness for C8 on a concrete stored document. -/
theorem to_public_witness :
    lookupD wDoc8 "_id" = some (.vOid 7) ∧
    lookupD wDoc8 "id" = none ∧
    _to_public wDoc8 = popKey wDoc8 "_id" ++ [("id", .vStr (pyStr (.vOid 7)))] ∧
    lookupD (_to_public wDoc8) "_id" = none ∧
    lookupD (_to_public wDoc8) "name" = lookupD wDoc8 "name" :=
  have h := to_public_renames_only_id wDoc8 (.vOid 7) rfl rfl
  ⟨rfl, rfl, h.1, h.2.1, h.2.2 "name" (by decide) (by decide)⟩

/-- Claim C9: the claim says every storage failure during a timeline
request propagates unmodified as StorageUnavailable and is never converted
into another error class.  A storage exception raised by
`db["kid"].find_one` is caught by the same `except Exception:` as the
ObjectId parse and surfaces as HTTP 400 `invalidInput` (first conjunct);
only a failure of the later `get_documents` call propagates (second
conjunct), and the `db is None` guard yields the 500 (third conjunct). -/
theorem storage_failure_not_propagated_from_find_one :
    kid_timeline wDB ⟨false, true, false⟩ cid1 false none = .error .invalidInput ∧
    kid_timeline wDB ⟨false, false, true⟩ cid1 false none = .error .storageUnavailable ∧
    kid_timeline wDB ⟨true, false, false⟩ cid1 false none = .error .dbNotConfigured :=
  ⟨rfl, rfl, rfl⟩

/-- Claim C10: every successful timeline response carries the kid's full
`allowed_grandparents` list and `parent_email` in the returned kid object,
for any caller; consequently the output is not independent of the secret
access list even for an unauthorized caller, witnessed by two stores that
differ only in the access list yet produce different responses to the
same unauthorized request. -/
theorem timeline_discloses_acl (db : DB) (inj : Inj) (kid_id : String)
    (ip : Bool) (gp : Option String) (k : KidDoc) (r : TLResult)
    (hk : kidLookupTry db inj kid_id = .ok k)
    (h : kid_timeline db inj kid_id ip gp = .ok r) :
    lookupD r.kid "allowed_grandparents"
      = some (.vList (k.allowed_grandparents.map .vStr)) ∧
    lookupD r.kid "parent_email" = some (.vStr k.parent_email) ∧
    kid_timeline wDBA noInj cid1 true (some "stranger@x.com") ≠
      kid_timeline wDBB noInj cid1 true (some "stranger@x.com") := by
  have hkl : kidLookup db inj kid_id = .ok k := by
    unfold kidLookup
    rw [hk]
  unfold kid_timeline at h
  rw [hkl] at h
  split at h
  · cases h
  · dsimp only at h
    split at h
    · cases h
    · split at h
      · cases h
      · next sorted heq =>
        injection h with h
        subst h
        refine ⟨lookup_pub_kid_ag k, lookup_pub_kid_parent_email k, ?_⟩
        intro hcon
        have hc := congrArg agListLen hcon
        rw [show agListLen (kid_timeline wDBA noInj cid1 true (some "stranger@x.com"))
              = 1 from rfl,
            show agListLen (kid_timeline wDBB noInj cid1 true (some "stranger@x.com"))
              = 2 from rfl] at hc
        exact absurd hc (by decide)

/-- Witness for C10 on the demo-shaped store. -/
theorem acl_disclosure_witness :
    kidLookupTry wDB noInj cid1 = .ok wKid ∧
    kid_timeline wDB noInj cid1 false (some "grandma@family.demo") = .ok wRes3 ∧
    lookupD wRes3.kid "allowed_grandparents"
      = some (.vList (wKid.allowed_grandparents.map .vStr)) ∧
    lookupD wRes3.kid "parent_email" = some (.vStr wKid.parent_email) :=
  have h := timeline_discloses_acl wDB noInj cid1 false (some "grandma@family.demo")
    wKid wRes3 rfl rfl
  ⟨rfl, rfl, h.1, h.2.1⟩

end LittleYears
